import Mathlib

/-!
Verification of the store-management repository (`models.py`, `db.py`,
`analysis.py`) against its natural-language specification.

The domain model (`models.py`) is embedded as pure Lean functions; the
SQLite-backed repository (`db.py`) is embedded as explicit state passing over
a `DB` record holding the four tables; the aggregation layer (`analysis.py`)
is embedded as pure functions over the `DB` state.  Python `float` prices are
modelled as `ℚ` and Python `int` as `Int`.  The `created_at` timestamps are
not modelled: no claim mentions them.
-/

namespace Store

/-- Validation failures raised (as `ValueError`) by the domain-model
constructors and mutators in `models.py`. -/
inductive ValidationError
  | priceNotPositive
  | negativeQuantity
  | itemQuantityNotPositive
deriving DecidableEq, Repr

/-- A product (`models.py`, class `Product`), also used as a row of the
`products` table, whose columns are exactly these fields (plus the
unmodelled `created_at`). -/
structure Product where
  id : Int
  name : String
  price : ℚ
  description : String
  quantity : Int
deriving DecidableEq, Repr

/-- `Product.__init__` (models.py lines 67-100): rejects `price <= 0` first,
then `quantity < 0`; otherwise stores the fields unchanged. -/
def Product.build (product_id : Int) (name : String) (price : ℚ)
    (description : String) (quantity : Int) : Except ValidationError Product :=
  if price ≤ 0 then .error .priceNotPositive
  else if quantity < 0 then .error .negativeQuantity
  else .ok ⟨product_id, name, price, description, quantity⟩

/-- `Product.update_quantity` (models.py lines 122-139): adds a signed delta;
raises (error value = the currently available quantity, which the Python
message interpolates) when the result would be negative, leaving the product
unchanged; otherwise mutates in place. -/
def Product.update_quantity (p : Product) (delta : Int) : Except Int Product :=
  let new_quantity := p.quantity + delta
  if new_quantity < 0 then .error p.quantity
  else .ok { p with quantity := new_quantity }

/-- A customer (`models.py`, class `Customer`), also used as a row of the
`customers` table, whose columns are exactly these fields (plus the
unmodelled `created_at`).  The constructor's email/phone regex validation is
not modelled: no claim depends on the patterns themselves. -/
structure Customer where
  id : Int
  name : String
  email : String
  phone : String
  address : String
  orders_count : Int
deriving DecidableEq, Repr

/-- `Customer.increment_orders_count` (models.py lines 230-232). -/
def Customer.increment_orders_count (c : Customer) : Customer :=
  { c with orders_count := c.orders_count + 1 }

/-- An order (`models.py`, class `Order`): `items` is the ordered list of
(product, quantity) line items. -/
structure Order where
  id : Int
  customer_id : Int
  items : List (Product × Int)
  status : String
  total_price : ℚ
deriving DecidableEq, Repr

/-- `Order._calculate_total` (models.py lines 359-368): sum of
`price * quantity` over the current item list. -/
def calcTotal (items : List (Product × Int)) : ℚ :=
  (items.map (fun pq => pq.1.price * (pq.2 : ℚ))).sum

/-- `Order.__init__` (models.py lines 268-285): status starts at `pending`
and the total is computed from the initial item list. -/
def Order.make (order_id : Int) (customer_id : Int)
    (items : List (Product × Int)) : Order :=
  ⟨order_id, customer_id, items, "pending", calcTotal items⟩

/-- `Order.add_item` (models.py lines 307-327): raises on `quantity <= 0`
before touching the item list; otherwise appends and recomputes the total. -/
def Order.add_item (o : Order) (product : Product) (quantity : Int) :
    Except ValidationError Order :=
  if quantity ≤ 0 then .error .itemQuantityNotPositive
  else
    let items := o.items ++ [(product, quantity)]
    .ok { o with items := items, total_price := calcTotal items }

/-- `Order.remove_item` (models.py lines 329-339): drops every line item whose
product id matches and recomputes the total; never fails. -/
def Order.remove_item (o : Order) (product_id : Int) : Order :=
  let items := o.items.filter (fun pq => pq.1.id != product_id)
  { o with items := items, total_price := calcTotal items }

/-- `Order.get_items_count` (models.py lines 370-379): sum of quantities. -/
def Order.get_items_count (o : Order) : Int :=
  (o.items.map (fun pq => pq.2)).sum

/-- One call in a sequence of `add_item` / `remove_item` invocations. -/
inductive OrderOp
  | add (product : Product) (quantity : Int)
  | remove (product_id : Int)

/-- Effect of one call on the order: a raising `add_item` (quantity <= 0)
leaves the object unchanged, exactly as the Python method raises before any
mutation. -/
def applyOp (o : Order) (op : OrderOp) : Order :=
  match op with
  | .add p q =>
    match o.add_item p q with
    | .ok o2 => o2
    | .error _ => o
  | .remove pid => o.remove_item pid

/-- A sequence of `Product.update_quantity` calls, stopping at the first
raising call; the error carries (reported available quantity, product state
at the moment of the failed call). -/
def runDeltas (p : Product) : List Int → Except (Int × Product) Product
  | [] => .ok p
  | d :: ds =>
    match p.update_quantity d with
    | .ok p2 => runDeltas p2 ds
    | .error avail => .error (avail, p)

/-- A row of the `orders` table (db.py lines 85-94). -/
structure OrderRow where
  id : Int
  customer_id : Int
  status : String
  total_price : ℚ
deriving DecidableEq, Repr

/-- A row of the `order_items` table (db.py lines 97-106).  The table's own
AUTOINCREMENT `id` column is not modelled: no operation of the repository
ever reads it. -/
structure OrderItemRow where
  order_id : Int
  product_id : Int
  quantity : Int
deriving DecidableEq, Repr

/-- The visible (committed) SQLite state: the four tables plus the next
AUTOINCREMENT id of each entity table.  Row order models rowid order, which
is the order SQLite returns rows in for the unordered SELECTs used here. -/
structure DB where
  products : List Product
  customers : List Customer
  orders : List OrderRow
  order_items : List OrderItemRow
  next_product_id : Int
  next_customer_id : Int
  next_order_id : Int
deriving DecidableEq, Repr

/-- `DatabaseManager.add_product` (db.py lines 116-145): inserts the four
field columns, commits, and returns the AUTOINCREMENT id. -/
def DB.add_product (db : DB) (p : Product) : Int × DB :=
  (db.next_product_id,
   { db with
     products := db.products ++
       [⟨db.next_product_id, p.name, p.price, p.description, p.quantity⟩],
     next_product_id := db.next_product_id + 1 })

/-- `DatabaseManager.get_product` (db.py lines 147-178): first row with the
id, or `None`.  (The Python code re-runs the validating constructor on the
row; rows written by `add_product` always pass it, so that re-check is not
modelled.) -/
def DB.get_product (db : DB) (product_id : Int) : Option Product :=
  db.products.find? (fun r => r.id == product_id)

/-- `DatabaseManager.get_all_products` (db.py lines 180-207). -/
def DB.get_all_products (db : DB) : List Product :=
  db.products

/-- `DatabaseManager.add_customer` (db.py lines 270-302): the UNIQUE
constraint on `email` makes the INSERT raise `sqlite3.IntegrityError` when
some stored row already carries the email; the handler returns the sentinel
`-1` and no row is inserted.  Otherwise the row is inserted with
`orders_count` hard-coded to `0` (db.py line 291) regardless of the
in-memory object's counter. -/
def DB.add_customer (db : DB) (c : Customer) : Int × DB :=
  if db.customers.any (fun r => r.email == c.email) then
    (-1, db)
  else
    (db.next_customer_id,
     { db with
       customers := db.customers ++
         [⟨db.next_customer_id, c.name, c.email, c.phone, c.address, 0⟩],
       next_customer_id := db.next_customer_id + 1 })

/-- `DatabaseManager.get_customer` (db.py lines 304-337): first row with the
id (the Python code rebuilds a `Customer` and then overwrites its
`_orders_count` from the row, i.e. returns exactly the row). -/
def DB.get_customer (db : DB) (customer_id : Int) : Option Customer :=
  db.customers.find? (fun r => r.id == customer_id)

/-- `DatabaseManager.get_all_customers` (db.py lines 339-369). -/
def DB.get_all_customers (db : DB) : List Customer :=
  db.customers

/-- `DatabaseManager.increment_customer_orders` (db.py lines 403-431):
`UPDATE customers SET orders_count = orders_count + 1 WHERE id = ?` on a
fresh connection, committed immediately; returns `rowcount > 0`. -/
def DB.increment_customer_orders (db : DB) (customer_id : Int) : Bool × DB :=
  (db.customers.any (fun r => r.id == customer_id),
   { db with customers := db.customers.map (fun r =>
       if r.id == customer_id then { r with orders_count := r.orders_count + 1 }
       else r) })

/-- `DatabaseManager.delete_customer` (db.py lines 433-458). -/
def DB.delete_customer (db : DB) (customer_id : Int) : Bool × DB :=
  (db.customers.any (fun r => r.id == customer_id),
   { db with customers := db.customers.filter (fun r => r.id != customer_id) })

/-- Which step of one `add_order` call hits a `sqlite3.Error`.  `add_order`
(db.py lines 462-503) runs the header INSERT and the item INSERTs inside one
uncommitted transaction on its own connection, then calls
`increment_customer_orders` — which opens a SECOND connection and commits its
UPDATE immediately, swallowing its own storage errors and returning a bool
that `add_order` ignores — and only then commits the main transaction.
(In fact, because the main connection still holds the write lock at that
point, the second connection's UPDATE always times out with `database is
locked`, i.e. the increment step always fails in a real run.) -/
structure AddOrderFailure where
  header_fails : Bool
  items_fail : Bool
  increment_fails : Bool
  commit_fails : Bool
deriving DecidableEq, Repr

/-- `DatabaseManager.add_order` (db.py lines 462-503) with the failure
schedule made explicit.  A failure of the header or item INSERT raises on the
main connection: the handler returns `-1` and closing the connection rolls
the uncommitted INSERTs back.  The counter UPDATE commits on its own
connection, so it survives a later failure of the main commit, and its own
failure does not stop the main commit. -/
def DB.add_order (db : DB) (o : Order) (f : AddOrderFailure) : Int × DB :=
  if f.header_fails || f.items_fail then
    (-1, db)
  else
    let db1 := if f.increment_fails then db
               else (db.increment_customer_orders o.customer_id).2
    if f.commit_fails then
      (-1, db1)
    else
      (db.next_order_id,
       { db1 with
         orders := db1.orders ++
           [⟨db.next_order_id, o.customer_id, o.status, o.total_price⟩],
         order_items := db1.order_items ++
           o.items.map (fun pq => ⟨db.next_order_id, pq.1.id, pq.2⟩),
         next_order_id := db.next_order_id + 1 })

/-- The line items `get_order` reconstructs for an order id (db.py lines
537-551): `SELECT p.*, oi.quantity FROM order_items oi JOIN products p ON
oi.product_id = p.id WHERE oi.order_id = ?`.  The result has TWO columns
named `quantity` (one from `p.*`, one from `oi`), and `sqlite3.Row` resolves
a name to the FIRST matching column, so both the rebuilt `Product.quantity`
and the appended line-item quantity read `p.quantity` (the product's current
stock); the selected `oi.quantity` is never actually read.  Items whose
product id has no matching product row are dropped by the inner join. -/
def DB.joined_line_items (db : DB) (order_id : Int) : List (Product × Int) :=
  (db.order_items.filter (fun oi => oi.order_id == order_id)).filterMap
    (fun oi => (db.products.find? (fun p => p.id == oi.product_id)).map
      (fun p => (p, p.quantity)))

/-- `DatabaseManager.get_order` (db.py lines 505-555): `None` when no order
row has the id; otherwise an `Order` carrying the stored status and stored
`total_price` (overwritten onto a freshly constructed object) with the
joined line items appended directly to `_items` (no total recomputation). -/
def DB.get_order (db : DB) (order_id : Int) : Option Order :=
  (db.orders.find? (fun r => r.id == order_id)).map (fun row =>
    { id := row.id
      customer_id := row.customer_id
      items := db.joined_line_items order_id
      status := row.status
      total_price := row.total_price })

/-- `DatabaseManager.get_all_orders` (db.py lines 557-575): `SELECT DISTINCT
id FROM orders` (DISTINCT is a no-op since `id` is the primary key) and then
`get_order` per id, dropping `None` results. -/
def DB.get_all_orders (db : DB) : List Order :=
  (db.orders.map (fun r => r.id)).filterMap db.get_order

/-- `DatabaseManager.delete_order` (db.py lines 634-660): deletes the order's
line-item rows, then the header row, commits both, and returns
`rowcount > 0` of the LAST statement, i.e. whether a header row existed. -/
def DB.delete_order (db : DB) (order_id : Int) : Bool × DB :=
  (db.orders.any (fun r => r.id == order_id),
   { db with
     order_items := db.order_items.filter (fun oi => oi.order_id != order_id),
     orders := db.orders.filter (fun r => r.id != order_id) })

/-- One row of the top-customers view (analysis.py lines 49-53). -/
structure TopEntry where
  name : String
  orders : Int
  email : String
deriving DecidableEq, Repr

/-- Column projection used to build the top-customers DataFrame. -/
def toEntry (c : Customer) : TopEntry :=
  ⟨c.name, c.orders_count, c.email⟩

/-- Stable ascending insertion on the `orders` key: an element is placed
before the first element with a key ≥ its own, so equal keys keep their
input order. -/
def insertByOrders (x : TopEntry) : List TopEntry → List TopEntry
  | [] => [x]
  | y :: ys =>
    if x.orders ≤ y.orders then x :: y :: ys else y :: insertByOrders x ys

/-- Stable ascending sort on the `orders` key.  This models the ascending
argsort pandas computes inside `sort_values`: numpy's sort is insertion sort
(hence stable) on the short runs at issue here. -/
def sortByOrdersAsc : List TopEntry → List TopEntry
  | [] => []
  | x :: xs => insertByOrders x (sortByOrdersAsc xs)

/-- `DataAnalyzer.get_top_customers` (analysis.py lines 43-58):
`df.sort_values(orders, ascending=False).head(n)`.  pandas implements a
descending single-column sort as the ascending argsort REVERSED
(`nargsort`: `indexer = indexer[::-1]`), so rows with equal `orders` come
out in reverse insertion order; then the first `n` rows are kept.  (The
early `return` on an empty customer list yields the same empty result.) -/
def get_top_customers (db : DB) (n : Nat) : List TopEntry :=
  ((sortByOrdersAsc (db.get_all_customers.map toEntry)).reverse).take n

/-- Stable DESCENDING insertion on the `orders` key: an element is placed
before the first element with a key ≤ its own, so equal keys keep their
input order. -/
def insertByOrdersDescStable (x : TopEntry) :
    List TopEntry → List TopEntry
  | [] => [x]
  | y :: ys =>
    if y.orders ≤ x.orders then x :: y :: ys
    else y :: insertByOrdersDescStable x ys

/-- Stable descending sort on the `orders` key. -/
def sortByOrdersDescStable : List TopEntry → List TopEntry
  | [] => []
  | x :: xs => insertByOrdersDescStable x (sortByOrdersDescStable xs)

/-- The ranking the specification claims: rank by `orders_count` descending
with ties broken by insertion/storage order (a stable descending sort),
truncated to the first `n`.  Stated from the spec's words, to be compared
with `get_top_customers` above. -/
def spec_top_customers (db : DB) (n : Nat) : List TopEntry :=
  (sortByOrdersDescStable (db.get_all_customers.map toEntry)).take n

/-- Result record of `DataAnalyzer.get_summary_statistics`. -/
structure SummaryStats where
  total_products : Nat
  total_customers : Nat
  total_orders : Nat
  total_revenue : ℚ
  avg_order_value : ℚ
  total_items_sold : Int
  avg_items_per_order : ℚ
deriving DecidableEq, Repr

/-- `DataAnalyzer.get_summary_statistics` (analysis.py lines 256-273): both
averages guard the division with `... if orders else 0`. -/
def get_summary_statistics (db : DB) : SummaryStats :=
  let products := db.get_all_products
  let customers := db.get_all_customers
  let orders := db.get_all_orders
  let total_revenue := (orders.map Order.total_price).sum
  let total_items := (orders.map Order.get_items_count).sum
  { total_products := products.length
    total_customers := customers.length
    total_orders := orders.length
    total_revenue := total_revenue
    avg_order_value :=
      if orders.isEmpty then 0 else total_revenue / (orders.length : ℚ)
    total_items_sold := total_items
    avg_items_per_order :=
      if orders.isEmpty then 0 else (total_items : ℚ) / (orders.length : ℚ) }

/-! ## Generic list helpers -/

theorem filterMap_eq_map_of_some {α β : Type} (f : α → Option β) (g : α → β) :
    ∀ (l : List α), (∀ a ∈ l, f a = some (g a)) → l.filterMap f = l.map g
  | [], _ => rfl
  | a :: l, h => by
    rw [List.filterMap_cons, h a (List.mem_cons_self a l), List.map_cons,
      filterMap_eq_map_of_some f g l (fun x hx => h x (List.mem_cons_of_mem a hx))]

theorem find?_append_right {α : Type} (p : α → Bool) :
    ∀ (l l' : List α), (∀ x ∈ l, p x = false) → (l ++ l').find? p = l'.find? p
  | [], _, _ => rfl
  | a :: l, l', h => by
    rw [List.cons_append, List.find?_cons, h a (List.mem_cons_self a l),
      find?_append_right p l l' (fun x hx => h x (List.mem_cons_of_mem a hx))]

/-! ## Claim C3: order totals never drift -/

theorem applyOp_preserves_total (o : Order) (op : OrderOp)
    (h : o.total_price = calcTotal o.items) :
    (applyOp o op).total_price = calcTotal (applyOp o op).items := by
  cases op with
  | add p q =>
    by_cases hq : q ≤ 0
    · simpa [applyOp, Order.add_item, hq] using h
    · simp [applyOp, Order.add_item, hq]
  | remove pid => simp [applyOp, Order.remove_item]

theorem foldl_applyOp_total : ∀ (ops : List OrderOp) (o : Order),
    o.total_price = calcTotal o.items →
    (ops.foldl applyOp o).total_price = calcTotal (ops.foldl applyOp o).items
  | [], _, h => h
  | op :: ops, o, h =>
    foldl_applyOp_total ops (applyOp o op) (applyOp_preserves_total o op h)

/-- Claim C3: for every order built by the constructor and every finite
sequence of `add_item` / `remove_item` calls, the final `total_price` equals
the sum of `price * quantity` over the final item list; `add_item` with a
non-positive quantity fails with a validation error and leaves the order
unchanged; `remove_item` with an id matching no line item is a no-op. -/
theorem C3_order_total_invariant :
    (∀ (oid cid : Int) (items0 : List (Product × Int)) (ops : List OrderOp),
        (ops.foldl applyOp (Order.make oid cid items0)).total_price =
          calcTotal (ops.foldl applyOp (Order.make oid cid items0)).items)
  ∧ (∀ (o : Order) (p : Product) (q : Int), q ≤ 0 →
        o.add_item p q = .error .itemQuantityNotPositive ∧
          applyOp o (.add p q) = o)
  ∧ (∀ (o : Order) (pid : Int), o.total_price = calcTotal o.items →
        (∀ pq ∈ o.items, pq.1.id ≠ pid) → o.remove_item pid = o) := by
  refine ⟨?_, ?_, ?_⟩
  · intro oid cid items0 ops
    exact foldl_applyOp_total ops (Order.make oid cid items0) rfl
  · intro o p q hq
    constructor
    · simp [Order.add_item, hq]
    · simp [applyOp, Order.add_item, hq]
  · intro o pid hinv hnone
    have hfilter : o.items.filter (fun pq => pq.1.id != pid) = o.items := by
      rw [List.filter_eq_self]
      intro pq hpq
      simpa using hnone pq hpq
    cases o with
    | mk i c its s t =>
      simp only [Order.remove_item] at *
      simp [hfilter, hinv.symm]

/-- Witness for C3 at concrete inputs. -/
theorem C3_order_total_invariant_witness :
    (([OrderOp.add ⟨1, "P", 10, "", 5⟩ 3, OrderOp.remove 7,
        OrderOp.add ⟨2, "Q", 4, "", 1⟩ 0].foldl applyOp
          (Order.make 1 1 [(⟨1, "P", 10, "", 5⟩, 2)])).total_price =
      calcTotal (([OrderOp.add ⟨1, "P", 10, "", 5⟩ 3, OrderOp.remove 7,
        OrderOp.add ⟨2, "Q", 4, "", 1⟩ 0].foldl applyOp
          (Order.make 1 1 [(⟨1, "P", 10, "", 5⟩, 2)])).items))
  ∧ ((Order.make 1 1 []).add_item ⟨1, "P", 10, "", 5⟩ 0 =
      .error .itemQuantityNotPositive)
  ∧ ((Order.make 1 1 [(⟨1, "P", 10, "", 5⟩, 2)]).remove_item 9 =
      Order.make 1 1 [(⟨1, "P", 10, "", 5⟩, 2)]) := by
  have h := C3_order_total_invariant
  refine ⟨h.1 1 1 [(⟨1, "P", 10, "", 5⟩, 2)] _, (h.2.1 _ _ 0 (by decide)).1, ?_⟩
  exact h.2.2 (Order.make 1 1 [(⟨1, "P", 10, "", 5⟩, 2)]) 9 rfl (by decide)

/-! ## Claim C4: quantity-delta sequences -/

theorem runDeltas_ok : ∀ (deltas : List Int) (p : Product),
    (∀ i < deltas.length, 0 ≤ p.quantity + (deltas.take (i + 1)).sum) →
    runDeltas p deltas = .ok { p with quantity := p.quantity + deltas.sum }
  | [], p, _ => by simp [runDeltas]
  | d :: ds, p, h => by
    have h0 := h 0 (by simp)
    rw [List.take_succ_cons, List.take_zero, List.sum_cons, List.sum_nil] at h0
    have hup : p.update_quantity d = .ok { p with quantity := p.quantity + d } := by
      simp only [Product.update_quantity]
      rw [if_neg (by omega)]
    have ih := runDeltas_ok ds { p with quantity := p.quantity + d } (by
      intro i hi
      have hh := h (i + 1) (by simpa using Nat.succ_lt_succ hi)
      rw [List.take_succ_cons, List.sum_cons] at hh
      simp only at hh ⊢
      omega)
    have hsum : p.quantity + d + ds.sum = p.quantity + (d :: ds).sum := by
      rw [List.sum_cons]; omega
    rw [runDeltas, hup]
    have goal2 : runDeltas { p with quantity := p.quantity + d } ds =
        .ok { p with quantity := p.quantity + (d :: ds).sum } := by
      rw [ih, hsum]
    exact goal2

theorem runDeltas_error :
    ∀ (pre : List Int) (p : Product) (d : Int) (rest : List Int),
    (∀ i < pre.length, 0 ≤ p.quantity + (pre.take (i + 1)).sum) →
    p.quantity + pre.sum + d < 0 →
    runDeltas p (pre ++ d :: rest) =
      .error (p.quantity + pre.sum, { p with quantity := p.quantity + pre.sum })
  | [], p, d, rest, _, hneg => by
    rw [List.sum_nil] at hneg
    have hup : p.update_quantity d = .error p.quantity := by
      simp only [Product.update_quantity]
      rw [if_pos (by omega)]
    rw [List.nil_append, runDeltas, hup, List.sum_nil]
    simp
  | e :: pre, p, d, rest, h, hneg => by
    have h0 := h 0 (by simp)
    rw [List.take_succ_cons, List.take_zero, List.sum_cons, List.sum_nil] at h0
    have hup : p.update_quantity e = .ok { p with quantity := p.quantity + e } := by
      simp only [Product.update_quantity]
      rw [if_neg (by omega)]
    have ih := runDeltas_error pre { p with quantity := p.quantity + e } d rest (by
      intro i hi
      have hh := h (i + 1) (by simpa using Nat.succ_lt_succ hi)
      rw [List.take_succ_cons, List.sum_cons] at hh
      simp only at hh ⊢
      omega) (by
      rw [List.sum_cons] at hneg
      simp only
      omega)
    rw [List.cons_append, runDeltas, hup]
    have hsum : p.quantity + e + pre.sum = p.quantity + (e :: pre).sum := by
      rw [List.sum_cons]; omega
    have goal2 : runDeltas { p with quantity := p.quantity + e } (pre ++ d :: rest) =
        .error (p.quantity + (e :: pre).sum,
          { p with quantity := p.quantity + (e :: pre).sum }) := by
      rw [ih, hsum]
    exact goal2

/-- Claim C4: a delta sequence whose running sum never drives the quantity
negative ends with quantity = initial + sum of deltas; the first delta that
would drive it negative fails with an error carrying the available quantity,
leaving the quantity unchanged from just before that call. -/
theorem C4_adjust_quantity_sequence (p : Product) (deltas : List Int) :
    ((∀ i < deltas.length, 0 ≤ p.quantity + (deltas.take (i + 1)).sum) →
        runDeltas p deltas = .ok { p with quantity := p.quantity + deltas.sum })
  ∧ (∀ (pre : List Int) (d : Int) (rest : List Int),
        deltas = pre ++ d :: rest →
        (∀ i < pre.length, 0 ≤ p.quantity + (pre.take (i + 1)).sum) →
        p.quantity + pre.sum + d < 0 →
        runDeltas p deltas =
          .error (p.quantity + pre.sum,
            { p with quantity := p.quantity + pre.sum })) := by
  constructor
  · exact runDeltas_ok deltas p
  · intro pre d rest hsplit hok hneg
    rw [hsplit]
    exact runDeltas_error pre p d rest hok hneg

/-- Witness for C4 at concrete inputs. -/
theorem C4_adjust_quantity_sequence_witness :
    runDeltas ⟨1, "P", 10, "", 5⟩ [3, -2] = .ok ⟨1, "P", 10, "", 6⟩
  ∧ runDeltas ⟨1, "P", 10, "", 5⟩ [3, -20, 4] =
      .error (8, ⟨1, "P", 10, "", 8⟩) := by
  constructor
  · exact (C4_adjust_quantity_sequence ⟨1, "P", 10, "", 5⟩ [3, -2]).1 (by decide)
  · exact (C4_adjust_quantity_sequence ⟨1, "P", 10, "", 5⟩ [3, -20, 4]).2
      [3] (-20) [4] rfl (by decide) (by decide)

/-! ## Claim C5: duplicate-email handling in `add_customer` -/

/-- Claim C5: adding a customer whose email is already stored returns the
sentinel `-1` without raising and creates no record; after the customer
holding that email is deleted, adding a customer with the same email
succeeds (the row is appended, with a non-sentinel id returned).  The
hypotheses state the integrity invariants SQLite maintains for this table:
distinct ids (primary key), distinct emails (UNIQUE), positive
AUTOINCREMENT counter. -/
theorem C5_duplicate_email (db : DB) (c r : Customer)
    (hmem : r ∈ db.customers) (hemail : r.email = c.email)
    (hemails : (db.customers.map Customer.email).Nodup)
    (hpos : 1 ≤ db.next_customer_id) :
    db.add_customer c = (-1, db)
  ∧ ((db.delete_customer r.id).2).add_customer c =
      (db.next_customer_id,
       { db with
         customers := db.customers.filter (fun s => s.id != r.id) ++
           [⟨db.next_customer_id, c.name, c.email, c.phone, c.address, 0⟩],
         next_customer_id := db.next_customer_id + 1 })
  ∧ (((db.delete_customer r.id).2).add_customer c).1 ≠ -1 := by
  have hdup : db.customers.any (fun s => s.email == c.email) = true := by
    rw [List.any_eq_true]
    exact ⟨r, hmem, by simp [hemail]⟩
  have hnodup : ((db.delete_customer r.id).2).customers.any
      (fun s => s.email == c.email) = false := by
    rw [List.any_eq_false]
    intro s hs
    simp only [DB.delete_customer, List.mem_filter] at hs
    intro hse
    rw [beq_iff_eq] at hse
    have hsr : s = r :=
      List.inj_on_of_nodup_map hemails hs.1 hmem (by rw [hse, hemail])
    have : (s.id != r.id) = true := hs.2
    rw [hsr] at this
    simp at this
  have h2 : ((db.delete_customer r.id).2).add_customer c =
      (db.next_customer_id,
       { db with
         customers := db.customers.filter (fun s => s.id != r.id) ++
           [⟨db.next_customer_id, c.name, c.email, c.phone, c.address, 0⟩],
         next_customer_id := db.next_customer_id + 1 }) := by
    simp only [DB.add_customer, hnodup, Bool.false_eq_true, if_false]
    simp [DB.delete_customer]
  refine ⟨by simp [DB.add_customer, hdup], h2, ?_⟩
  rw [h2]
  show db.next_customer_id ≠ -1
  omega

/-- Witness for C5 at a concrete store state. -/
theorem C5_duplicate_email_witness :
    (DB.add_customer
      ⟨[], [⟨1, "Ann", "a@x.com", "+1234567890", "", 3⟩], [], [], 1, 2, 1⟩
      ⟨0, "Bob", "a@x.com", "+1987654321", "", 0⟩ =
        (-1, ⟨[], [⟨1, "Ann", "a@x.com", "+1234567890", "", 3⟩], [], [], 1, 2, 1⟩))
  ∧ ((DB.delete_customer
        ⟨[], [⟨1, "Ann", "a@x.com", "+1234567890", "", 3⟩], [], [], 1, 2, 1⟩
        1).2).add_customer ⟨0, "Bob", "a@x.com", "+1987654321", "", 0⟩ =
      (2, ⟨[], [⟨2, "Bob", "a@x.com", "+1987654321", "", 0⟩], [], [], 1, 3, 1⟩) := by
  have h := C5_duplicate_email
    ⟨[], [⟨1, "Ann", "a@x.com", "+1234567890", "", 3⟩], [], [], 1, 2, 1⟩
    ⟨0, "Bob", "a@x.com", "+1987654321", "", 0⟩
    ⟨1, "Ann", "a@x.com", "+1234567890", "", 3⟩
    (by decide) rfl (by decide) (by decide)
  exact ⟨h.1, h.2.1⟩

/-! ## Claim C7: `delete_order` cascade and frame -/

/-- Claim C7: `delete_order` removes the order's line-item rows and its
header, so a subsequent `get_order` on that id is absent; it returns `false`
(silently) when no order with the id exists; and it never touches the
customers table, so `orders_count` is unchanged. -/
theorem C7_delete_order_cascade (db : DB) (oid : Int) :
    ((db.delete_order oid).2).get_order oid = none
  ∧ ((db.delete_order oid).2).customers = db.customers
  ∧ (∀ it ∈ ((db.delete_order oid).2).order_items, it.order_id ≠ oid)
  ∧ ((∀ r ∈ db.orders, r.id ≠ oid) → (db.delete_order oid).1 = false) := by
  refine ⟨?_, rfl, ?_, ?_⟩
  · have hfind : (((db.delete_order oid).2).orders.find?
        (fun r => r.id == oid)) = none := by
      rw [List.find?_eq_none]
      intro r hr
      simp only [DB.delete_order, List.mem_filter] at hr
      simpa using hr.2
    simp [DB.get_order, hfind]
  · intro it hit
    simp only [DB.delete_order, List.mem_filter] at hit
    simpa using hit.2
  · intro hnone
    simp only [DB.delete_order]
    rw [List.any_eq_false]
    intro r hr
    simpa using hnone r hr

/-- Witness for C7 at a concrete store state: deleting order 1 hides it from
`get_order` and keeps the customer's counter; deleting the absent order 2
returns `false`. -/
theorem C7_delete_order_cascade_witness :
    ((DB.delete_order
        ⟨[⟨1, "P", 10, "", 5⟩], [⟨1, "Ann", "a@x.com", "+1234567890", "", 1⟩],
         [⟨1, 1, "pending", 20⟩], [⟨1, 1, 2⟩], 2, 2, 2⟩ 1).2).get_order 1 = none
  ∧ ((DB.delete_order
        ⟨[⟨1, "P", 10, "", 5⟩], [⟨1, "Ann", "a@x.com", "+1234567890", "", 1⟩],
         [⟨1, 1, "pending", 20⟩], [⟨1, 1, 2⟩], 2, 2, 2⟩ 1).2).customers =
      [⟨1, "Ann", "a@x.com", "+1234567890", "", 1⟩]
  ∧ (DB.delete_order
        ⟨[⟨1, "P", 10, "", 5⟩], [⟨1, "Ann", "a@x.com", "+1234567890", "", 1⟩],
         [⟨1, 1, "pending", 20⟩], [⟨1, 1, 2⟩], 2, 2, 2⟩ 2).1 = false := by
  refine ⟨(C7_delete_order_cascade _ 1).1, (C7_delete_order_cascade _ 1).2.1, ?_⟩
  exact (C7_delete_order_cascade _ 2).2.2.2 (by decide)

/-! ## Claim C9: product validation and persistence round-trip -/

/-- Claim C9: for any name, positive price and non-negative quantity,
constructing a `Product` succeeds, and `add_product` followed by
`get_product` on the returned id yields the same name, price, description
and quantity; construction fails with a validation error for `price ≤ 0` or
`quantity < 0`.  The freshness hypothesis is SQLite's AUTOINCREMENT
guarantee that no stored row carries the next id. -/
theorem C9_product_roundtrip (pid : Int) (name : String) (price : ℚ)
    (descr : String) (qty : Int) (db : DB)
    (hp : 0 < price) (hq : 0 ≤ qty)
    (hfresh : ∀ r ∈ db.products, r.id ≠ db.next_product_id) :
    Product.build pid name price descr qty = .ok ⟨pid, name, price, descr, qty⟩
  ∧ (db.add_product ⟨pid, name, price, descr, qty⟩).1 = db.next_product_id
  ∧ ((db.add_product ⟨pid, name, price, descr, qty⟩).2).get_product
      db.next_product_id = some ⟨db.next_product_id, name, price, descr, qty⟩
  ∧ (∀ (price2 : ℚ) (qty2 : Int), price2 ≤ 0 ∨ qty2 < 0 →
      ∃ e, Product.build pid name price2 descr qty2 = .error e) := by
  refine ⟨?_, rfl, ?_, ?_⟩
  · simp [Product.build, not_le.mpr hp, not_lt.mpr hq]
  · simp only [DB.get_product, DB.add_product]
    rw [find?_append_right _ _ _ (by
      intro r hr
      simpa using hfresh r hr)]
    simp [List.find?]
  · intro price2 qty2 hbad
    by_cases hp2 : price2 ≤ 0
    · exact ⟨.priceNotPositive, by simp [Product.build, hp2]⟩
    · have hq2 : qty2 < 0 := hbad.resolve_left hp2
      exact ⟨.negativeQuantity, by simp [Product.build, hp2, hq2]⟩

/-- Witness for C9 at concrete inputs. -/
theorem C9_product_roundtrip_witness :
    Product.build 0 "Tea" 12 "loose leaf" 4 = .ok ⟨0, "Tea", 12, "loose leaf", 4⟩
  ∧ ((DB.add_product ⟨[], [], [], [], 1, 1, 1⟩
        ⟨0, "Tea", 12, "loose leaf", 4⟩).2).get_product 1 =
      some ⟨1, "Tea", 12, "loose leaf", 4⟩
  ∧ (∃ e, Product.build 0 "Tea" 0 "loose leaf" 4 = .error e) := by
  have h := C9_product_roundtrip 0 "Tea" 12 "loose leaf" 4
    ⟨[], [], [], [], 1, 1, 1⟩ (by norm_num) (by decide) (by decide)
  exact ⟨h.1, h.2.2.1, h.2.2.2 0 4 (Or.inl (by norm_num))⟩

/-! ## Claim C10: `add_customer` resets the persisted counter to zero -/

/-- Claim C10: whatever `orders_count` the in-memory `Customer` object
carries (including one bumped by `increment_orders_count` before
persistence), the row `add_customer` stores has `orders_count = 0`, and
reading the new id back returns a counter of `0`. -/
theorem C10_orders_count_reset (db : DB) (c : Customer)
    (hemail : ∀ r ∈ db.customers, r.email ≠ c.email)
    (hfresh : ∀ r ∈ db.customers, r.id ≠ db.next_customer_id) :
    ((db.add_customer c).2).customers =
      db.customers ++
        [⟨db.next_customer_id, c.name, c.email, c.phone, c.address, 0⟩]
  ∧ ((db.add_customer c).2).get_customer db.next_customer_id =
      some ⟨db.next_customer_id, c.name, c.email, c.phone, c.address, 0⟩
  ∧ ((db.add_customer c.increment_orders_count).2).customers =
      db.customers ++
        [⟨db.next_customer_id, c.name, c.email, c.phone, c.address, 0⟩] := by
  have hnodup : db.customers.any (fun s => s.email == c.email) = false := by
    rw [List.any_eq_false]
    intro s hs
    simpa using hemail s hs
  refine ⟨by simp [DB.add_customer, hnodup], ?_, ?_⟩
  · simp only [DB.add_customer, hnodup, DB.get_customer, Bool.false_eq_true,
      if_false]
    rw [find?_append_right _ _ _ (by
      intro r hr
      simpa using hfresh r hr)]
    simp [List.find?]
  · simp [DB.add_customer, Customer.increment_orders_count, hnodup]

/-- Witness for C10: a customer whose in-memory counter is 7 is persisted
with counter 0. -/
theorem C10_orders_count_reset_witness :
    ((DB.add_customer ⟨[], [], [], [], 1, 5, 1⟩
        ⟨0, "Nia", "n@x.com", "+1234509876", "addr", 7⟩).2).customers =
      [⟨5, "Nia", "n@x.com", "+1234509876", "addr", 0⟩]
  ∧ ((DB.add_customer ⟨[], [], [], [], 1, 5, 1⟩
        ⟨0, "Nia", "n@x.com", "+1234509876", "addr", 7⟩).2).get_customer 5 =
      some ⟨5, "Nia", "n@x.com", "+1234509876", "addr", 0⟩ := by
  have h := C10_orders_count_reset ⟨[], [], [], [], 1, 5, 1⟩
    ⟨0, "Nia", "n@x.com", "+1234509876", "addr", 7⟩ (by decide) (by decide)
  exact ⟨h.1, h.2.1⟩

/-! ## Claim C1: `add_order` is not atomic -/

/-- Concrete store: one product, one customer with zero orders. -/
def c1_store : DB :=
  ⟨[⟨1, "P", 10, "", 5⟩], [⟨1, "Cara", "c@x.com", "+1234567890", "", 0⟩],
   [], [], 2, 2, 1⟩

/-- Concrete in-memory order for customer 1 with one line item. -/
def c1_order : Order := Order.make 0 1 [(⟨1, "P", 10, "", 5⟩, 2)]

/-- Claim C1 evaluated at the failing input: when the counter UPDATE inside
`increment_customer_orders` hits a storage error (swallowed there and
ignored by `add_order` — and in a real run guaranteed, since that UPDATE
runs on a second connection while the first still holds the write lock),
`add_order` still commits the order header and the line item and reports
success, while `orders_count` stays 0: the composite write is partially
applied, contradicting all-or-nothing visibility.  Conversely, when the
main commit fails after the counter committed on its own connection, the
call reports failure (`-1`) and no order is visible, yet the counter
increment persists. -/
theorem C1_add_order_not_atomic :
    (c1_store.add_order c1_order ⟨false, false, true, false⟩).1 = 1
  ∧ (c1_store.add_order c1_order ⟨false, false, true, false⟩).2.orders =
      [⟨1, 1, "pending", 20⟩]
  ∧ (c1_store.add_order c1_order ⟨false, false, true, false⟩).2.order_items =
      [⟨1, 1, 2⟩]
  ∧ (c1_store.add_order c1_order ⟨false, false, true, false⟩).2.customers.map
      Customer.orders_count = [0]
  ∧ (c1_store.add_order c1_order ⟨false, false, false, true⟩).1 = -1
  ∧ (c1_store.add_order c1_order ⟨false, false, false, true⟩).2.orders = []
  ∧ (c1_store.add_order c1_order ⟨false, false, false, true⟩).2.customers.map
      Customer.orders_count = [1] := by
  have htot : c1_order.total_price = 20 := by
    show calcTotal [((⟨1, "P", 10, "", 5⟩ : Product), (2 : Int))] = 20
    rw [calcTotal]
    norm_num
  refine ⟨rfl, ?_, rfl, rfl, rfl, rfl, rfl⟩
  show [({ id := 1, customer_id := 1, status := "pending",
           total_price := c1_order.total_price } : OrderRow)] =
    [⟨1, 1, "pending", 20⟩]
  rw [htot]

/-! ## Claim C2: `get_order` line-item quantities -/

/-- Concrete store: product 1 with stock 7, order 1 with one stored line
item of quantity 2 (stored total 20 = 2 × 10). -/
def c2_store : DB :=
  ⟨[⟨1, "P", 10, "", 7⟩], [⟨1, "Cara", "c@x.com", "+1234567890", "", 1⟩],
   [⟨1, 1, "pending", 20⟩], [⟨1, 1, 2⟩], 2, 2, 2⟩

/-- Claim C2 evaluated at the failing input: the stored line item has
quantity 2, but `get_order` returns the line item with quantity 7 — the
product's current stock — because `sqlite3.Row` resolves the duplicated
column name `quantity` in `SELECT p.*, oi.quantity` to the first (product)
column.  The stored status and total are returned, and a missing id yields
an absent result, as claimed. -/
theorem C2_get_order_quantity_mismatch :
    c2_store.order_items.map OrderItemRow.quantity = [2]
  ∧ c2_store.get_order 1 =
      some ⟨1, 1, [(⟨1, "P", 10, "", 7⟩, 7)], "pending", 20⟩
  ∧ c2_store.get_order 2 = none := by
  decide

/-! ## Claim C8: summary statistics -/

/-- The `Order` object `get_order` rebuilds from a stored header row. -/
def reconstruct (db : DB) (r : OrderRow) : Order :=
  ⟨r.id, r.customer_id, db.joined_line_items r.id, r.status, r.total_price⟩

theorem find?_id_self : ∀ (l : List OrderRow),
    (l.map OrderRow.id).Nodup →
    ∀ r ∈ l, l.find? (fun s => s.id == r.id) = some r
  | [], _, r, hr => absurd hr (List.not_mem_nil r)
  | a :: t, hn, r, hr => by
    rw [List.map_cons, List.nodup_cons] at hn
    rcases List.mem_cons.mp hr with h | h
    · subst h
      simp [List.find?]
    · have hne : (a.id == r.id) = false := by
        rw [beq_eq_false_iff_ne]
        intro he
        exact hn.1 (he ▸ List.mem_map_of_mem OrderRow.id h)
      rw [List.find?_cons, hne]
      exact find?_id_self t hn.2 r h

theorem get_order_of_mem (db : DB)
    (hn : (db.orders.map OrderRow.id).Nodup)
    (r : OrderRow) (hr : r ∈ db.orders) :
    db.get_order r.id = some (reconstruct db r) := by
  rw [DB.get_order, find?_id_self db.orders hn r hr]
  rfl

theorem get_all_orders_eq (db : DB)
    (hn : (db.orders.map OrderRow.id).Nodup) :
    db.get_all_orders = db.orders.map (reconstruct db) := by
  rw [DB.get_all_orders, List.filterMap_map]
  exact filterMap_eq_map_of_some _ _ db.orders
    (fun r hr => get_order_of_mem db hn r hr)

/-- Claim C8: the summary-statistics operation never faults: with no orders
both averages are 0 (the divisions are guarded) and all totals are 0; in
general it returns the product count, the customer count, the order count,
total revenue as the sum of the stored order totals, and total items sold
as the sum of the items counts of all returned orders. -/
theorem C8_summary_statistics (db : DB) :
    (get_summary_statistics db).total_products = db.products.length
  ∧ (get_summary_statistics db).total_customers = db.customers.length
  ∧ (db.orders = [] →
      (get_summary_statistics db).avg_order_value = 0
    ∧ (get_summary_statistics db).avg_items_per_order = 0
    ∧ (get_summary_statistics db).total_orders = 0
    ∧ (get_summary_statistics db).total_revenue = 0
    ∧ (get_summary_statistics db).total_items_sold = 0)
  ∧ ((db.orders.map OrderRow.id).Nodup →
      (get_summary_statistics db).total_orders = db.orders.length
    ∧ (get_summary_statistics db).total_revenue =
        (db.orders.map OrderRow.total_price).sum
    ∧ (get_summary_statistics db).total_items_sold =
        ((db.get_all_orders).map Order.get_items_count).sum) := by
  refine ⟨rfl, rfl, ?_, ?_⟩
  · intro h
    have hempty : db.get_all_orders = [] := by
      rw [DB.get_all_orders, h]
      rfl
    simp [get_summary_statistics, hempty]
  · intro hn
    have he := get_all_orders_eq db hn
    refine ⟨?_, ?_, rfl⟩
    · simp [get_summary_statistics, he]
    · simp only [get_summary_statistics, he, List.map_map]
      rfl

/-- Witness for C8: the empty store yields zero averages without faulting,
and a store with two orders (totals 10 and 20) reports revenue 30 and order
count 2. -/
theorem C8_summary_statistics_witness :
    (get_summary_statistics ⟨[], [], [], [], 1, 1, 1⟩).avg_order_value = 0
  ∧ (get_summary_statistics ⟨[], [], [], [], 1, 1, 1⟩).avg_items_per_order = 0
  ∧ (get_summary_statistics
      ⟨[], [], [⟨1, 1, "pending", 10⟩, ⟨2, 1, "shipped", 20⟩], [], 1, 1, 3⟩).total_orders = 2
  ∧ (get_summary_statistics
      ⟨[], [], [⟨1, 1, "pending", 10⟩, ⟨2, 1, "shipped", 20⟩], [], 1, 1, 3⟩).total_revenue = 30 := by
  have h1 := (C8_summary_statistics ⟨[], [], [], [], 1, 1, 1⟩).2.2.1 rfl
  have h2 := (C8_summary_statistics
    ⟨[], [], [⟨1, 1, "pending", 10⟩, ⟨2, 1, "shipped", 20⟩], [], 1, 1, 3⟩).2.2.2
    (by decide)
  refine ⟨h1.1, h1.2.1, h2.1, ?_⟩
  rw [h2.2.1]
  norm_num

/-! ## Claim C6: top-N customers ranking -/

theorem insertByOrders_perm (x : TopEntry) :
    ∀ (l : List TopEntry), (insertByOrders x l).Perm (x :: l)
  | [] => List.Perm.refl _
  | y :: ys => by
    by_cases h : x.orders ≤ y.orders
    · rw [insertByOrders, if_pos h]
    · rw [insertByOrders, if_neg h]
      exact ((insertByOrders_perm x ys).cons y).trans (List.Perm.swap x y ys)

theorem sortByOrdersAsc_perm :
    ∀ (l : List TopEntry), (sortByOrdersAsc l).Perm l
  | [] => List.Perm.refl _
  | x :: xs =>
    (insertByOrders_perm x (sortByOrdersAsc xs)).trans
      ((sortByOrdersAsc_perm xs).cons x)

theorem insertByOrders_pairwise (x : TopEntry) :
    ∀ (l : List TopEntry),
    l.Pairwise (fun a b => a.orders ≤ b.orders) →
    (insertByOrders x l).Pairwise (fun a b => a.orders ≤ b.orders)
  | [], _ => by simp [insertByOrders]
  | y :: ys, h => by
    rw [List.pairwise_cons] at h
    by_cases hxy : x.orders ≤ y.orders
    · rw [insertByOrders, if_pos hxy, List.pairwise_cons]
      refine ⟨?_, List.pairwise_cons.mpr h⟩
      intro z hz
      rcases List.mem_cons.mp hz with rfl | hz'
      · exact hxy
      · exact le_trans hxy (h.1 z hz')
    · rw [insertByOrders, if_neg hxy, List.pairwise_cons]
      refine ⟨?_, insertByOrders_pairwise x ys h.2⟩
      intro z hz
      rcases List.mem_cons.mp ((insertByOrders_perm x ys).mem_iff.mp hz) with
        rfl | hz'
      · exact le_of_not_le hxy
      · exact h.1 z hz'

theorem sortByOrdersAsc_pairwise : ∀ (l : List TopEntry),
    (sortByOrdersAsc l).Pairwise (fun a b => a.orders ≤ b.orders)
  | [] => List.Pairwise.nil
  | x :: xs => insertByOrders_pairwise x _ (sortByOrdersAsc_pairwise xs)

theorem filter_insertByOrders (x : TopEntry) (k : Int) :
    ∀ (l : List TopEntry),
    (insertByOrders x l).filter (fun e => e.orders == k) =
      (if x.orders == k then [x] else []) ++
        l.filter (fun e => e.orders == k)
  | [] => by
    by_cases hpx : (x.orders == k) = true
    · simp [insertByOrders, List.filter, hpx]
    · simp [insertByOrders, List.filter, hpx]
  | y :: ys => by
    by_cases hxy : x.orders ≤ y.orders
    · rw [insertByOrders, if_pos hxy]
      by_cases hpx : (x.orders == k) = true
      · simp [List.filter_cons, hpx]
      · simp [List.filter_cons, hpx]
    · rw [insertByOrders, if_neg hxy, List.filter_cons,
        filter_insertByOrders x k ys]
      by_cases hpx : (x.orders == k) = true
      · have hyk : (y.orders == k) = false := by
          rw [beq_eq_false_iff_ne]
          rw [beq_iff_eq] at hpx
          have hlt : y.orders < x.orders := not_le.mp hxy
          omega
        simp [List.filter_cons, hpx, hyk]
      · simp [List.filter_cons, hpx]

theorem filter_sortByOrdersAsc (k : Int) : ∀ (l : List TopEntry),
    (sortByOrdersAsc l).filter (fun e => e.orders == k) =
      l.filter (fun e => e.orders == k)
  | [] => rfl
  | x :: xs => by
    rw [sortByOrdersAsc, filter_insertByOrders, filter_sortByOrdersAsc k xs,
      List.filter_cons]
    by_cases hpx : (x.orders == k) = true
    · simp [hpx]
    · simp [hpx]

/-- Claim C6 (amended): the top-N customers view is sorted by `orders`
descending and truncated to the first `n` entries, the full (untruncated)
view is a permutation of the customer table's rows, and customers with
EQUAL counts appear in REVERSE insertion/storage order — not in insertion
order as claimed — because pandas implements the descending sort by
reversing the ascending argsort. -/
theorem C6_top_customers_ranking (db : DB) (n : Nat) :
    (get_top_customers db n).Pairwise (fun a b => b.orders ≤ a.orders)
  ∧ (get_top_customers db n).length = min n db.customers.length
  ∧ (get_top_customers db db.customers.length).Perm
      (db.get_all_customers.map toEntry)
  ∧ (∀ k : Int,
      (get_top_customers db db.customers.length).filter
          (fun e => e.orders == k) =
        ((db.get_all_customers.map toEntry).filter
          (fun e => e.orders == k)).reverse) := by
  have hlen : ((sortByOrdersAsc (db.get_all_customers.map toEntry)).reverse).length
      = db.customers.length := by
    rw [List.length_reverse,
      (sortByOrdersAsc_perm (db.get_all_customers.map toEntry)).length_eq,
      List.length_map]
    rfl
  have hfull : get_top_customers db db.customers.length =
      (sortByOrdersAsc (db.get_all_customers.map toEntry)).reverse := by
    rw [get_top_customers, ← hlen, List.take_length]
  refine ⟨?_, ?_, ?_, ?_⟩
  · exact List.Pairwise.sublist (List.take_sublist _ _)
      (List.pairwise_reverse.mpr
        (sortByOrdersAsc_pairwise (db.get_all_customers.map toEntry)))
  · rw [get_top_customers, List.length_take, hlen]
  · rw [hfull]
    exact (List.reverse_perm _).trans
      (sortByOrdersAsc_perm (db.get_all_customers.map toEntry))
  · intro k
    rw [hfull, List.filter_reverse, filter_sortByOrdersAsc]

/-- Concrete store refuting C6 as stated: two customers with equal
`orders_count`, Ann inserted before Bea. -/
def c6_store : DB :=
  ⟨[], [⟨1, "Ann", "a@x.com", "+1111111111", "", 2⟩,
        ⟨2, "Bea", "b@x.com", "+2222222222", "", 2⟩], [], [], 1, 3, 1⟩

/-- Counterexample to claim C6 as stated: with two equally ranked customers
the code's top-1 view returns Bea (the LATER-inserted one), while the
claimed stable descending ranking (`spec_top_customers`, written from the
spec's words) returns Ann: ties are not broken by insertion order. -/
theorem C6_top_customers_counterexample :
    get_top_customers c6_store 1 = [⟨"Bea", 2, "b@x.com"⟩]
  ∧ spec_top_customers c6_store 1 = [⟨"Ann", 2, "a@x.com"⟩]
  ∧ get_top_customers c6_store 1 ≠ spec_top_customers c6_store 1 := by
  decide

end Store
